import Mathlib

/-!
Verification development for the video-Json pipeline.

Shallow embedding of the repository's core components:
- `Mastermind._parse_input_prompt` fallback split (src/src/mastermind.py)
- `JsonBuilder.update_segments` / `JsonBuilder.save_minimal` (src/src/json_builder.py)
- `ImageGenerator.generate_batch` adaptive-concurrency loop (src/src/image_generator.py)
- `Mastermind.generate_video` orchestrator (src/src/mastermind.py)
- `run_generation` job dispatch (src/api.py)

Modelling conventions: Python dicts with a fixed key set become structures,
optional keys become `Option` fields, Python floats become `Int` (no claim
depends on fractional or rounding behavior of the time stamps), exceptions
become `Except String`, external collaborator calls become fields of an
environment record, and the md5 hexdigest is an abstract `String → String`
parameter (both call sites feed it the same normalized text, which is all
the correlation scheme relies on).
-/

namespace VideoJson

/-! Python string primitives, re-implemented by structural recursion over
the character list so that concrete instances reduce inside the kernel. -/

/-- Python's `str.lower()` (ASCII case folding, which covers every input
the pipeline lower-cases). -/
def pyLower (s : String) : String :=
  (s.data.map Char.toLower).asString

/-- Python's `str.strip()` with no argument: drop whitespace from both
ends. -/
def pyStrip (s : String) : String :=
  (((s.data.dropWhile Char.isWhitespace).reverse.dropWhile Char.isWhitespace).reverse).asString

/-- Python's `s[:n]` prefix slice. -/
def pyTake (s : String) (n : Nat) : String :=
  (s.data.take n).asString

/-- Character-list worker for `pySplit`: scan left to right, cutting at
every leftmost non-overlapping occurrence of the (non-empty) separator.
The fuel starts at the list length, an upper bound on the scan steps. -/
def splitChars (sep : List Char) : Nat → List Char → List Char → List (List Char)
  | _, acc, [] => [acc.reverse]
  | 0, acc, l => [acc.reverse ++ l]
  | fuel + 1, acc, c :: cs =>
    if sep.isPrefixOf (c :: cs) then
      acc.reverse :: splitChars sep fuel [] ((c :: cs).drop sep.length)
    else
      splitChars sep fuel (c :: acc) cs

/-- Python's `s.split(sep)` for a non-empty separator (Python raises
`ValueError` on an empty one; the source only splits on " in " and
" with "). -/
def pySplit (s sep : String) : List String :=
  if sep.data.isEmpty then [s]
  else (splitChars sep.data s.data.length [] s.data).map List.asString

/-- Python's `sep.join(parts)`. -/
def pyJoin (sep : String) : List String → String
  | [] => ""
  | [x] => x
  | x :: y :: rest => x ++ sep ++ pyJoin sep (y :: rest)

/-- Character-list worker for `strContains`. -/
def listContainsSub (sub : List Char) : List Char → Bool
  | [] => sub.isEmpty
  | c :: cs => sub.isPrefixOf (c :: cs) || listContainsSub sub cs

/-- Python's substring test `sub in s`. -/
def strContains (s sub : String) : Bool :=
  listContainsSub sub.data s.data

/-- The text normalization both `mastermind.py` (line 285) and
`json_builder.py` (line 161) apply before hashing: `text.strip().lower()`. -/
def content_hash_input (text : String) : String :=
  pyLower (pyStrip text)

/-- Result shape of `Mastermind._parse_input_prompt`: a dict with keys
`topic` and `style_directive`. In the heuristic fallback branches the topic
is always a string. -/
structure ParsedInput where
  topic : String
  style_directive : Option String
deriving Repr, DecidableEq

/-- `Mastermind._parse_input_prompt`, branch taken when the delegated parser
is unavailable (`not self.input_parser_llm`, mastermind.py lines 119-128):
lower-case the whole input, split on every occurrence of " in " (then
" with "), rejoin all but the last part as the topic and keep the last part
as the style directive; with no separator the original input is the topic
and the style is null. No stripping happens in this branch. -/
def parse_input_prompt_no_llm (input_prompt_str : String) : ParsedInput :=
  let partsIn := pySplit (pyLower input_prompt_str) " in "
  if partsIn.length > 1 then
    { topic := pyJoin " in " partsIn.dropLast
      style_directive := some partsIn.getLast! }
  else
    let partsWith := pySplit (pyLower input_prompt_str) " with "
    if partsWith.length > 1 then
      { topic := pyJoin " with " partsWith.dropLast
        style_directive := some partsWith.getLast! }
    else
      { topic := input_prompt_str, style_directive := none }

/-- `Mastermind._parse_input_prompt`, fallback taken when the delegated LLM
call raises (mastermind.py lines 149-155): same heuristic split but with
`.strip()` applied to both parts. -/
def parse_input_prompt_llm_error (input_prompt_str : String) : ParsedInput :=
  let partsIn := pySplit (pyLower input_prompt_str) " in "
  if partsIn.length > 1 then
    { topic := pyStrip (pyJoin " in " partsIn.dropLast)
      style_directive := some (pyStrip partsIn.getLast!) }
  else
    let partsWith := pySplit (pyLower input_prompt_str) " with "
    if partsWith.length > 1 then
      { topic := pyStrip (pyJoin " with " partsWith.dropLast)
        style_directive := some (pyStrip partsWith.getLast!) }
    else
      { topic := pyStrip input_prompt_str, style_directive := none }

/-- One transcription segment as consumed by `JsonBuilder.update_segments`
(json_builder.py lines 139-148): keys `text`, `start_time`, `end_time`,
`words` and the optional `part`. Word entries are opaque to the builder
(copied verbatim), so they are modelled as strings. -/
structure TransSegment where
  text : String
  start_time : Int
  end_time : Int
  words : List String
  part : Option String
deriving Repr, DecidableEq

/-- Transcription result dict: `duration` plus the ordered `segments`. -/
structure Transcription where
  duration : Int
  segments : List TransSegment
deriving Repr, DecidableEq

/-- One segment of the prompt stage's output. `image_prompt` and `id` model
possibly-absent dict keys (mastermind.py line 282 tests `"image_prompt" in
segment`; line 287 uses `segment.get('id', i+1)`). -/
structure PromptSegment where
  text : String
  start_time : Int
  end_time : Int
  image_prompt : Option String
  id : Option String
deriving Repr, DecidableEq

/-- Prompt-stage output dict (`prompt_data`): the segment list plus the
fields the degraded path of mastermind.py lines 261-272 writes. -/
structure PromptData where
  segments : List PromptSegment
  batch_generated : Bool
  error : Option String
deriving Repr, DecidableEq

/-- One value of the image-generation results mapping. `error` and
`placeholder` model keys that are present only in the placeholder entries
built by mastermind.py lines 308-327; the entries produced inside
`ImageGenerator.generate_batch` itself carry only the two url keys
(`error := none`, `placeholder := false`). In Python every such value is a
non-empty dict and hence truthy. -/
structure ImageResult where
  image_url : Option String
  depth_map_url : Option String
  error : Option String
  placeholder : Bool
deriving Repr, DecidableEq

/-- The image-generation results mapping: a Python dict modelled as an
insertion-ordered association list (keys are unique by construction). -/
abbrev ImageData := List (String × ImageResult)

/-- Correlation of one segment with the results mapping, embedding
json_builder.py lines 159-193 for segment index `i` with text `text`:
(1) exact match on the segment index rendered as a string; failing that
(2) the first key containing the token `hash-` followed by the digest of
the normalized segment text; failing both, no result. The third branch in
the source (lines 183-193) is a `pass` and attaches nothing. The Python
truthiness guards on the matched values always pass because every value is
a non-empty dict. -/
def find_image_data (hash : String → String) (i : Nat) (text : String)
    (image_data : ImageData) : Option ImageResult :=
  match image_data.lookup (Nat.repr i) with
  | some d => some d
  | none =>
    let content_hash := hash (content_hash_input text)
    match image_data.find? (fun kv => strContains kv.fst ("hash-" ++ content_hash)) with
    | some kv => some kv.snd
    | none => none

/-- One entry of the final document's segment list, as built by
`JsonBuilder.update_segments` (json_builder.py lines 141-203). The outer
`Option` on `image_url` and `depth_map_url` models key absence (the keys
are written only when a result matched); the inner `Option` models a null
value inside a matched result. -/
structure OutSegment where
  id : Nat
  text : String
  start_time : Int
  end_time : Int
  duration : Int
  words : List String
  part : Option String
  image_prompt : Option String
  image_url : Option (Option String)
  depth_map_url : Option (Option String)
deriving Repr, DecidableEq

/-- Fetch `prompt_data["segments"][i]["image_prompt"]` as json_builder.py
lines 155-156 do: only consulted when `i` is in range; a prompt segment
without the `image_prompt` key makes the Python code raise `KeyError`. -/
def prompt_at (prompt_segments : Option (List PromptSegment)) (i : Nat) :
    Except String (Option String) :=
  match prompt_segments with
  | none => Except.ok none
  | some ps =>
    if h : i < ps.length then
      match (ps.get ⟨i, h⟩).image_prompt with
      | some p => Except.ok (some p)
      | none => Except.error "KeyError: image_prompt"
    else Except.ok none

/-- Build the output segment for transcription segment `seg` at index `i`
(json_builder.py lines 141-203): copy the transcription fields, stamp
`id := i`, compute `duration`, attach the image prompt when available and
attach the correlated image result's url fields when one matched. -/
def build_out_segment (hash : String → String)
    (prompt_segments : Option (List PromptSegment)) (image_data : Option ImageData)
    (i : Nat) (seg : TransSegment) : Except String OutSegment :=
  match prompt_at prompt_segments i with
  | Except.error e => Except.error e
  | Except.ok ip =>
    let matched : Option ImageResult :=
      match image_data with
      | none => none
      | some d => find_image_data hash i seg.text d
    Except.ok
      { id := i
        text := seg.text
        start_time := seg.start_time
        end_time := seg.end_time
        duration := seg.end_time - seg.start_time
        words := seg.words
        part := seg.part
        image_prompt := ip
        image_url := matched.map (fun d => d.image_url)
        depth_map_url := matched.map (fun d => d.depth_map_url) }

/-- The `for i, segment in enumerate(transcription["segments"])` loop of
`JsonBuilder.update_segments`, threading the first raised exception. -/
def update_segments_go (hash : String → String)
    (prompt_segments : Option (List PromptSegment)) (image_data : Option ImageData) :
    Nat → List TransSegment → Except String (List OutSegment)
  | _, [] => Except.ok []
  | i, seg :: rest =>
    match build_out_segment hash prompt_segments image_data i seg with
    | Except.error e => Except.error e
    | Except.ok s =>
      match update_segments_go hash prompt_segments image_data (i + 1) rest with
      | Except.error e => Except.error e
      | Except.ok tl => Except.ok (s :: tl)

/-- `JsonBuilder.update_segments` (json_builder.py lines 121-215), projected
to the segment list it stores into the document (the method also copies
`transcription["duration"]` into the audio section and re-stamps the
modification time, neither of which any claim consults). -/
def update_segments (hash : String → String) (transcription : Transcription)
    (prompt_data : Option PromptData) (image_data : Option ImageData) :
    Except String (List OutSegment) :=
  update_segments_go hash (prompt_data.map (fun p => p.segments)) image_data 0
    transcription.segments

/-- The segment-count reconciliation of mastermind.py lines 349-353: when
the prompt and transcription segment lists differ in length, truncate both
to the shorter length before merging. -/
def reconcile (transcription : Transcription) (prompt_data : PromptData) :
    Transcription × PromptData :=
  if prompt_data.segments.length ≠ transcription.segments.length then
    let min_len := min prompt_data.segments.length transcription.segments.length
    ({ transcription with segments := transcription.segments.take min_len },
     { prompt_data with segments := prompt_data.segments.take min_len })
  else (transcription, prompt_data)

/-- The key construction of mastermind.py lines 280-288: for each prompt
segment carrying an `image_prompt`, the key is `segment.get('id', i+1)`
followed by `-hash-` and the digest of the normalized segment text, and the
value is the image prompt. Insertion order of the Python dict is the
enumeration order. -/
def build_image_prompts (hash : String → String) (psegs : List PromptSegment) :
    List (String × String) :=
  psegs.enum.filterMap (fun p =>
    p.2.image_prompt.map (fun prompt =>
      ((p.2.id.getD (Nat.repr (p.1 + 1))) ++ "-hash-" ++
        hash (content_hash_input p.2.text), prompt)))

/-- The slice of `JsonBuilder` instance state `save_minimal` reads: the
topic currently in the document's metadata and the instance's unique
filenames (json_builder.py lines 26-28, 282, 287). -/
structure BuilderState where
  topic : String
  filename : String
  error_filename : String
deriving Repr, DecidableEq

/-- The stripped-down document `JsonBuilder.save_minimal` builds
(json_builder.py lines 278-291), parametrized by the type of the error
payload. The two datetime stamps are wall-clock reads and are omitted. -/
structure MinimalDoc (α : Type) where
  title : String
  description : String
  topic : String
  error : Bool
  original_filename_attempt : String
  error_info : α
  segments : List OutSegment
deriving Repr, DecidableEq

/-- The `minimal_data` dict of json_builder.py lines 278-291. -/
def minimal_document {α : Type} (builder : BuilderState) (error_info : α) :
    MinimalDoc α :=
  { title := "Error in video generation"
    description := ""
    topic := builder.topic
    error := true
    original_filename_attempt := builder.filename
    error_info := error_info
    segments := [] }

/-- `JsonBuilder.save_minimal` (json_builder.py lines 268-292): build the
minimal document and hand it to `StorageManager.save_json` (storage.py
lines 152-183). `storage_save` models that filesystem write, which returns
the saved path or raises (directory creation and `open(...).write` are not
guarded by any try/except on this path). -/
def save_minimal {α : Type} (storage_save : MinimalDoc α → Except String String)
    (builder : BuilderState) (error_info : α) : Except String String :=
  storage_save (minimal_document builder error_info)

/-! Embedding of `ImageGenerator.generate_batch` (image_generator.py lines
174-247). A submitted task's outcome (`future.result()`) either returns the
result dict of `generate_image` or raises; each group's futures are
processed in completion order, modelled as the order of the task list.
The per-group checkpoint write (lines 235-245) persists progress to storage
and does not influence the returned mapping or the concurrency state, so it
is not modelled. -/

/-- `MIN_WORKERS` (image_generator.py line 185). -/
def MIN_WORKERS : Nat := 2

/-- `MAX_WORKERS` (image_generator.py line 186). -/
def MAX_WORKERS : Nat := 20

/-- The mutable concurrency state of one `generate_batch` invocation:
`current_workers` and `backoff_factor` persist across groups, while
`rate_limited` is reset to false at the start of every group. -/
structure BatchSt where
  current_workers : Nat
  backoff_factor : Nat
  rate_limited : Bool
deriving Repr, DecidableEq

/-- The state at the start of each `generate_batch` call
(image_generator.py lines 187-188): 15 workers, backoff factor 1. -/
def initial_batch_state : BatchSt :=
  { current_workers := 15, backoff_factor := 1, rate_limited := false }

/-- The result recorded for one completed future (image_generator.py lines
209-222): the returned dict on success; on an exception, a dict holding
only null `image_url` and `depth_map_url` (no error key is written). -/
def record_outcome : Except String ImageResult → ImageResult
  | Except.ok img => img
  | Except.error _ =>
    { image_url := none, depth_map_url := none, error := none, placeholder := false }

/-- The concurrency adjustment after one completed future
(image_generator.py lines 216-231): on a no-exception completion, +1 worker
capped at `MAX_WORKERS` unless the group saw a rate limit; on an exception
whose message contains "429", mark the group rate-limited, halve the
workers floored at `MIN_WORKERS` and double the backoff up to 60; on any
other exception, reset the backoff factor to 1. -/
def process_task (st : BatchSt) (outcome : Except String ImageResult) : BatchSt :=
  match outcome with
  | Except.ok _ =>
    if !st.rate_limited && st.current_workers < MAX_WORKERS then
      { st with current_workers := min (st.current_workers + 1) MAX_WORKERS }
    else st
  | Except.error e =>
    if strContains e "429" then
      { rate_limited := true
        current_workers := max (st.current_workers / 2) MIN_WORKERS
        backoff_factor := min (st.backoff_factor * 2) 60 }
    else { st with backoff_factor := 1 }

/-- One group of the batch loop (image_generator.py lines 197-231):
`rate_limited` starts false, every future's outcome is recorded under its
own key, and the concurrency state is folded over the completions. The
recorded result of a task does not depend on the concurrency state. -/
def process_group (st : BatchSt) (tasks : List (String × Except String ImageResult)) :
    BatchSt × List (String × ImageResult) :=
  (tasks.foldl (fun s t => process_task s t.2) { st with rate_limited := false },
   tasks.map (fun t => (t.1, record_outcome t.2)))

/-- The group loop of `generate_batch`: concurrency state carries over from
group to group and the per-group results are merged (`results.update`; keys
are unique across groups, so the merge is concatenation). -/
def run_groups (st : BatchSt) :
    List (List (String × Except String ImageResult)) →
    BatchSt × List (String × ImageResult)
  | [] => (st, [])
  | g :: gs =>
    let r := process_group st g
    let rest := run_groups r.1 gs
    (rest.1, r.2 ++ rest.2)

/-- The batch slicing of image_generator.py lines 182-193:
`prompt_items[batch_num*batch_size : (batch_num+1)*batch_size]` for
`batch_num` below `ceil(len/batch_size)`, i.e. successive chunks of
`batch_size` items (the source always calls this with `batch_size = 20`). -/
def chunks {α : Type} (n : Nat) : List α → List (List α)
  | [] => []
  | x :: xs =>
    if n = 0 then [x :: xs]
    else (x :: xs).take n :: chunks n ((x :: xs).drop n)
termination_by l => l.length
decreasing_by
  simp [List.length_drop]
  omega

/-- `ImageGenerator.generate_batch` (image_generator.py lines 174-247):
run each `generate_image` task (modelled by `outcome`), grouped in chunks
of `batch_size`, starting from the initial concurrency state, and return
the merged per-key results mapping. -/
def generate_batch (outcome : String → String → Except String ImageResult)
    (prompts : List (String × String)) (batch_size : Nat := 20) :
    List (String × ImageResult) :=
  (run_groups initial_batch_state
    (chunks batch_size (prompts.map (fun kv => (kv.1, outcome kv.1 kv.2))))).2

/-- The trace of concurrency states a `generate_batch` call passes through:
for each group, the state after the per-group reset followed by the state
after every completed future, then the following groups. -/
def batch_states (st : BatchSt) :
    List (List (String × Except String ImageResult)) → List BatchSt
  | [] => []
  | g :: gs =>
    List.scanl (fun s t => process_task s t.2) { st with rate_limited := false } g
      ++ batch_states (process_group st g).1 gs

/-! Embedding of `Mastermind.generate_video` (mastermind.py lines 157-436).
Each external collaborator call is a field of a `StageEnv`: an
`Except String` value standing for the call either returning or raising.
Wall-clock reads are the `t0` / `t_end` fields. -/

/-- Script-stage result (only its presence matters to the orchestrator's
state; the builder copies its text into the document). -/
structure ScriptData where
  full_script : String
deriving Repr, DecidableEq

/-- TTS-stage result dict. -/
structure AudioInfo where
  url : String
  all_urls : List String
  num_chunks : Nat
deriving Repr, DecidableEq

/-- Outcomes of the external calls `generate_video` makes, in program
order. `images` carries a flag telling whether a raised image-batch error
is a `ConnectionError` (mastermind.py lines 302-329 handle the two except
arms identically except for the `placeholder` key). Each `save…` field is
one `json_builder.save()` call, i.e. a storage write returning the path or
raising; `minimal_save` is the storage write inside
`json_builder.save_minimal`. -/
structure StageEnv where
  llm_available : Bool
  llm_parse : Except String (Option String × Option String)
  style_parse : Except String Unit
  script : Except String ScriptData
  save_after_script : Except String String
  tts : Except String AudioInfo
  save_after_audio : Except String String
  transcribe : Except String Transcription
  save_after_transcription : Except String String
  prompts : Except String PromptData
  save_after_prompts : Except String String
  images : Except (String × Bool) ImageData
  final_save : Except String String
  minimal_save : Except String String
  hash : String → String
  t0 : Nat
  t_end : Nat

/-- The `self.state` dict of mastermind.py lines 101-115. `error` models
the key written only by the exception handler (absent initially); the
never-written `video_path` entry is omitted. -/
structure PState where
  input_prompt : Option String
  parsed_topic : Option String
  parsed_style_directive : Option String
  script_data : Option ScriptData
  audio_info : Option AudioInfo
  transcription : Option Transcription
  prompt_data : Option PromptData
  image_data : Option ImageData
  image_generation_error : Option String
  json_path : Option String
  status : String
  error : Option String
  start_time : Nat
  end_time : Option Nat
deriving Repr, DecidableEq

/-- The state as initialized in `Mastermind.__init__`. -/
def initial_state (t0 : Nat) : PState :=
  { input_prompt := none
    parsed_topic := none
    parsed_style_directive := none
    script_data := none
    audio_info := none
    transcription := none
    prompt_data := none
    image_data := none
    image_generation_error := none
    json_path := none
    status := "initialized"
    error := none
    start_time := t0
    end_time := none }

/-- Result of `Mastermind._parse_input_prompt`: the LLM path may return a
null topic, the heuristic fallbacks always return one. -/
structure ParsedTopicStyle where
  topic : Option String
  style_directive : Option String
deriving Repr, DecidableEq

/-- `Mastermind._parse_input_prompt` (mastermind.py lines 117-155): the
no-LLM heuristic when the client is unavailable; otherwise the LLM call,
falling back to the stripping heuristic when it raises. -/
def parse_input_prompt (env : StageEnv) (s : String) : ParsedTopicStyle :=
  if !env.llm_available then
    let r := parse_input_prompt_no_llm s
    { topic := some r.topic, style_directive := r.style_directive }
  else
    match env.llm_parse with
    | Except.ok r => { topic := r.1, style_directive := r.2 }
    | Except.error _ =>
      let r := parse_input_prompt_llm_error s
      { topic := some r.topic, style_directive := r.style_directive }

/-- The degraded prompt data built when the prompt stage raises
(mastermind.py lines 261-272); the dict's `count` and `timestamp` keys are
not modelled. -/
def fallback_prompt_data (transcription : Transcription) (e : String) : PromptData :=
  { segments := transcription.segments.map (fun s =>
      { text := s.text
        start_time := s.start_time
        end_time := s.end_time
        image_prompt := some ("Visual representation of: " ++ pyTake s.text 100 ++ "...")
        id := none })
    batch_generated := false
    error := some e }

/-- The top-level exception handler of mastermind.py lines 428-436, applied
to whatever state had accumulated when the exception was raised. -/
def fail_state (env : StageEnv) (st : PState) (e : String) : PState :=
  { st with status := "error", error := some e, end_time := some env.t_end }

/-- `Mastermind.generate_video` (mastermind.py lines 157-436). Every
external call that raises outside a local try/except falls through to
`fail_state`; locally caught failures produce the degraded values the
source builds. The success return additionally exposes the builder's
document under a `json_data` key, which no claim consults; the asset
cleanup (lines 374-413) only touches the filesystem and catches its
per-item errors. A transcription or prompt dict that is structurally valid
by construction makes the validation raises of lines 243-244 and 338-341
unreachable in the model. -/
def generate_video (env : StageEnv) (input_prompt_str : String) : PState :=
  let st0 := { initial_state env.t0 with input_prompt := some input_prompt_str }
  let parsed := parse_input_prompt env input_prompt_str
  match parsed.topic with
  | none => fail_state env st0 "Failed to extract a topic from the input prompt."
  | some actual_topic =>
  if actual_topic = "" then
    fail_state env st0 "Failed to extract a topic from the input prompt."
  else
  let st1 := { st0 with parsed_topic := some actual_topic
                        parsed_style_directive := parsed.style_directive }
  -- style-directive parsing (lines 186-198) is fully caught: both outcomes
  -- continue and nothing is recorded in the state
  match env.script with
  | Except.error e => fail_state env st1 e
  | Except.ok script_data =>
  let st2 := { st1 with script_data := some script_data }
  match env.save_after_script with
  | Except.error e => fail_state env st2 e
  | Except.ok _ =>
  let st3 := { st2 with status := "generating_tts" }
  match env.tts with
  | Except.error e => fail_state env st3 e
  | Except.ok audio_info =>
  let st4 := { st3 with audio_info := some audio_info }
  match env.save_after_audio with
  | Except.error e => fail_state env st4 e
  | Except.ok _ =>
  let st5 := { st4 with status := "transcribing_audio" }
  match env.transcribe with
  | Except.error e => fail_state env st5 e
  | Except.ok transcription =>
  let st6 := { st5 with transcription := some transcription }
  -- line 232: update_segments with neither prompt nor image data cannot raise
  match env.save_after_transcription with
  | Except.error e => fail_state env st6 e
  | Except.ok _ =>
  let st7 := { st6 with status := "generating_prompts" }
  let prompt_data :=
    match env.prompts with
    | Except.error e => fallback_prompt_data transcription e
    | Except.ok pd =>
      -- lines 246-257: the segment update and save after prompt generation
      -- sit inside the same try, so their failures also degrade
      match update_segments env.hash transcription (some pd) none with
      | Except.error e => fallback_prompt_data transcription e
      | Except.ok _ =>
        match env.save_after_prompts with
        | Except.error e => fallback_prompt_data transcription e
        | Except.ok _ => pd
  let st8 := { st7 with prompt_data := some prompt_data
                        status := "generating_images" }
  let prompts := build_image_prompts env.hash prompt_data.segments
  let staged :=
    if prompts.isEmpty then (([] : ImageData), (none : Option String))
    else
      match env.images with
      | Except.ok data => (data, none)
      | Except.error p =>
        (prompts.map (fun kv => (kv.1,
          { image_url := none, depth_map_url := none, error := some p.1
            placeholder := p.2 })), some p.1)
  let st9 := { st8 with image_data := some staged.1
                        image_generation_error := staged.2 }
  let json_path_res : Except String String :=
    match update_segments env.hash (reconcile transcription prompt_data).1
        (some (reconcile transcription prompt_data).2) (some staged.1) with
    | Except.ok _ =>
      match env.final_save with
      | Except.ok p => Except.ok p
      | Except.error _ => env.minimal_save
    | Except.error _ => env.minimal_save
  match json_path_res with
  | Except.error e => fail_state env st9 e
  | Except.ok path =>
    { st9 with json_path := some path
               status := "completed"
               end_time := some env.t_end }

/-! Embedding of the job-dispatch boundary (src/api.py lines 85-147). -/

/-- One record of the `jobs` store (api.py lines 96-103). -/
structure JobRecord where
  status : String
  input_prompt : Option String
  result : Option PState
  error : Option String
  start_time : Nat
  end_time : Option Nat
deriving Repr, DecidableEq

/-- The record created on submission (api.py lines 96-103). -/
def initial_job (t : Nat) (prompt : String) : JobRecord :=
  { status := "pending"
    input_prompt := some prompt
    result := none
    error := none
    start_time := t
    end_time := none }

/-- The ways `Mastermind()` construction (mastermind.py lines 28-115) can
end. It never returns normally: when `self.config.validate()` raises, the
constructor calls `sys.exit(1)` (lines 33-38), raising `SystemExit` — not
an `Exception`, so the dispatcher's handler does not catch it; on every
other path an `Exception` is raised no later than line 95, where the
`ImageGenerator(...)` keyword arguments read `self.config.freeflux_api_key`
and `self.config.image_generator_config`, attributes `ProjectConfig` never
defines (config.py lines 82 and 118-121 leave them commented out, and the
class has no `__getattr__`), so the argument evaluation raises
`AttributeError` — and `ImageGenerator.__init__` (image_generator.py line
13) accepts only `storage_manager`, so the keyword call could not succeed
even then. Which exception message arrives depends on the environment
(earlier collaborator constructors may raise first), so it is carried as
data. -/
inductive MastermindInit where
  | system_abort : MastermindInit
  | raises (msg : String) : MastermindInit
deriving Repr, DecidableEq

/-- `run_generation` (api.py lines 117-147): the try body constructs
`Mastermind()` before it can call `generate_video`, and construction never
returns normally, so the completed-update of lines 130-137 is dead code
and the handler of lines 139-147 marks the job failed with the error
string for every `Exception`; a `SystemExit` from config validation
escapes `except Exception` and leaves the job record untouched (still
pending, never terminal). -/
def run_generation (init : MastermindInit) (t_done : Nat)
    (_input_prompt : String) (job : JobRecord) : JobRecord :=
  match init with
  | MastermindInit.system_abort => job
  | MastermindInit.raises e =>
    { job with status := "failed"
               error := some ("Generation failed: " ++ e)
               end_time := some t_done }

/-! Helper lemmas. -/

/-- `Nat.digitChar` never yields a dash. -/
theorem digitChar_ne_dash (n : Nat) : Nat.digitChar n ≠ '-' := by
  match n with
  | 0 => decide
  | 1 => decide
  | 2 => decide
  | 3 => decide
  | 4 => decide
  | 5 => decide
  | 6 => decide
  | 7 => decide
  | 8 => decide
  | 9 => decide
  | 10 => decide
  | 11 => decide
  | 12 => decide
  | 13 => decide
  | 14 => decide
  | 15 => decide
  | k + 16 =>
    have h : Nat.digitChar (k + 16) = '*' := rfl
    rw [h]
    decide

/-- `Nat.toDigitsCore` only ever prepends digit characters. -/
theorem toDigitsCore_no_dash (b : Nat) (f : Nat) :
    ∀ (n : Nat) (l : List Char), (∀ c ∈ l, c ≠ '-') →
      ∀ c ∈ Nat.toDigitsCore b f n l, c ≠ '-' := by
  induction f with
  | zero =>
    intro n l hl c hc
    simpa [Nat.toDigitsCore] using hl c (by simpa [Nat.toDigitsCore] using hc)
  | succ f ih =>
    intro n l hl c hc
    simp only [Nat.toDigitsCore] at hc
    by_cases hx : n / b = 0
    · simp only [hx, if_pos rfl] at hc
      rcases List.mem_cons.mp hc with h | h
      · subst h; exact digitChar_ne_dash _
      · exact hl c h
    · rw [if_neg hx] at hc
      refine ih (n / b) (Nat.digitChar (n % b) :: l) ?_ c hc
      intro d hd
      rcases List.mem_cons.mp hd with h | h
      · subst h; exact digitChar_ne_dash _
      · exact hl d h

/-- The decimal rendering of a natural number (Python's `str(i)`) contains
no dash. -/
theorem repr_no_dash (n : Nat) : ∀ c ∈ (Nat.repr n).data, c ≠ '-' := by
  intro c hc
  have h : (Nat.repr n).data = Nat.toDigitsCore 10 (n + 1) n [] := rfl
  rw [h] at hc
  exact toDigitsCore_no_dash 10 (n + 1) n [] (by simp) c hc

/-- Every key of the shape the orchestrator builds contains a dash. -/
theorem dash_mem_key (pre suf : String) :
    '-' ∈ (pre ++ "-hash-" ++ suf).data := by
  simp [String.data_append]

/-- A key of the orchestrator's shape is never the decimal rendering of an
ordinal, whatever the ordinal. -/
theorem key_ne_repr (pre suf : String) (j : Nat) :
    pre ++ "-hash-" ++ suf ≠ Nat.repr j := by
  intro h
  have hd : '-' ∈ (Nat.repr j).data := by rw [← h]; exact dash_mem_key pre suf
  exact repr_no_dash j '-' hd rfl

/-! Claim C3: the heuristic fallback split. -/

/-- C3 counterexample: on the spec's scenario input the fallback split does
not return the topic with its original capitalization — the whole input is
lower-cased before splitting, so the topic comes back lower-cased. -/
theorem c3_counterexample :
    parse_input_prompt_no_llm "A tutorial about Python programming in educational style" =
      { topic := "a tutorial about python programming"
        style_directive := some "educational style" } ∧
    (parse_input_prompt_no_llm
        "A tutorial about Python programming in educational style").topic ≠
      "A tutorial about Python programming" := by
  constructor
  · decide
  · decide

/-- C3 (amended): with the delegated parser unavailable, the heuristic
split of the scenario input yields the lower-cased topic
"a tutorial about python programming" and style directive
"educational style"; the two parts rejoin to the lower-cased input at the
last separator occurrence (the style part contains no further separator);
and an input whose lower-casing contains neither " in " nor " with " comes
back whole as the topic with no style directive. -/
theorem c3_amended_split :
    (parse_input_prompt_no_llm "A tutorial about Python programming in educational style" =
      { topic := "a tutorial about python programming"
        style_directive := some "educational style" }) ∧
    ("a tutorial about python programming" ++ " in " ++ "educational style" =
      pyLower "A tutorial about Python programming in educational style") ∧
    (strContains "educational style" " in " = false) ∧
    (∀ s : String,
      (pySplit (pyLower s) " in ").length ≤ 1 →
      (pySplit (pyLower s) " with ").length ≤ 1 →
      parse_input_prompt_no_llm s = { topic := s, style_directive := none }) := by
  refine ⟨by decide, by decide, by decide, ?_⟩
  intro s h1 h2
  simp only [parse_input_prompt_no_llm]
  rw [if_neg (by omega), if_neg (by omega)]

/-- Witness for C3 (amended): the no-separator branch at a concrete input. -/
theorem c3_amended_split_witness :
    parse_input_prompt_no_llm "History of Rome" =
      { topic := "History of Rome", style_directive := none } :=
  c3_amended_split.2.2.2 "History of Rome" (by decide) (by decide)

/-! Claims C6-C8: the adaptive batch executor. -/

/-- One completed future keeps `current_workers` inside
`[MIN_WORKERS, MAX_WORKERS]`. -/
theorem process_task_bounds (st : BatchSt) (o : Except String ImageResult)
    (h1 : MIN_WORKERS ≤ st.current_workers) (h2 : st.current_workers ≤ MAX_WORKERS) :
    MIN_WORKERS ≤ (process_task st o).current_workers ∧
      (process_task st o).current_workers ≤ MAX_WORKERS := by
  cases o with
  | ok img =>
    simp only [process_task]
    split
    · simp only [MIN_WORKERS, MAX_WORKERS] at *
      constructor
      · simp
        omega
      · simp
    · exact ⟨h1, h2⟩
  | error e =>
    simp only [process_task]
    split
    · simp only [MIN_WORKERS, MAX_WORKERS] at *
      constructor
      · simp
      · simp
        omega
    · exact ⟨h1, h2⟩

/-- Workers bound propagated along the scan of one group. -/
theorem scanl_workers_bounds (g : List (String × Except String ImageResult)) :
    ∀ st : BatchSt, MIN_WORKERS ≤ st.current_workers → st.current_workers ≤ MAX_WORKERS →
      ∀ s ∈ List.scanl (fun s t => process_task s t.2) st g,
        MIN_WORKERS ≤ s.current_workers ∧ s.current_workers ≤ MAX_WORKERS := by
  induction g with
  | nil =>
    intro st h1 h2 s hs
    simp only [List.scanl] at hs
    rcases List.mem_singleton.mp hs with rfl
    exact ⟨h1, h2⟩
  | cons t ts ih =>
    intro st h1 h2 s hs
    rw [List.scanl_cons] at hs
    rcases List.mem_cons.mp hs with rfl | hs
    · exact ⟨h1, h2⟩
    · have hb := process_task_bounds st t.2 h1 h2
      exact ih (process_task st t.2) hb.1 hb.2 s hs

/-- Workers bound propagated by the fold of one group. -/
theorem foldl_workers_bounds (g : List (String × Except String ImageResult)) :
    ∀ st : BatchSt, MIN_WORKERS ≤ st.current_workers → st.current_workers ≤ MAX_WORKERS →
      MIN_WORKERS ≤ (g.foldl (fun s t => process_task s t.2) st).current_workers ∧
        (g.foldl (fun s t => process_task s t.2) st).current_workers ≤ MAX_WORKERS := by
  induction g with
  | nil => intro st h1 h2; simpa using ⟨h1, h2⟩
  | cons t ts ih =>
    intro st h1 h2
    have hb := process_task_bounds st t.2 h1 h2
    simpa using ih (process_task st t.2) hb.1 hb.2

/-- Workers bound along the whole trace of a batch run. -/
theorem batch_states_bounds
    (groups : List (List (String × Except String ImageResult))) :
    ∀ st : BatchSt, MIN_WORKERS ≤ st.current_workers → st.current_workers ≤ MAX_WORKERS →
      ∀ s ∈ batch_states st groups,
        MIN_WORKERS ≤ s.current_workers ∧ s.current_workers ≤ MAX_WORKERS := by
  induction groups with
  | nil => intro st _ _ s hs; simp [batch_states] at hs
  | cons g gs ih =>
    intro st h1 h2 s hs
    simp only [batch_states, List.mem_append] at hs
    rcases hs with hs | hs
    · exact scanl_workers_bounds g { st with rate_limited := false } h1 h2 s hs
    · have hb := foldl_workers_bounds g { st with rate_limited := false } h1 h2
      exact ih (process_group st g).1 hb.1 hb.2 s hs

/-- C6: the concurrency defaults are `MIN_WORKERS = 2`, `MAX_WORKERS = 20`
with 15 initial workers, and throughout every batch invocation — across
every completed future of every group, for any completion order —
`current_workers` stays within `[MIN_WORKERS, MAX_WORKERS]`. -/
theorem c6_workers_bounded :
    MIN_WORKERS = 2 ∧ MAX_WORKERS = 20 ∧ initial_batch_state.current_workers = 15 ∧
    ∀ (groups : List (List (String × Except String ImageResult))),
      ∀ s ∈ batch_states initial_batch_state groups,
        MIN_WORKERS ≤ s.current_workers ∧ s.current_workers ≤ MAX_WORKERS := by
  refine ⟨rfl, rfl, rfl, ?_⟩
  intro groups s hs
  exact batch_states_bounds groups initial_batch_state (by decide) (by decide) s hs

/-- Witness for C6: a one-group run hitting a rate limit passes through the
state with 7 workers, which the theorem bounds. -/
theorem c6_workers_bounded_witness :
    ({ current_workers := 7, backoff_factor := 2, rate_limited := true } : BatchSt) ∈
      batch_states initial_batch_state [[("k", Except.error "HTTP 429")]] ∧
    MIN_WORKERS ≤ (7 : Nat) ∧ (7 : Nat) ≤ MAX_WORKERS := by
  refine ⟨by decide, ?_⟩
  exact c6_workers_bounded.2.2.2 [[("k", Except.error "HTTP 429")]]
    { current_workers := 7, backoff_factor := 2, rate_limited := true } (by decide)

/-- C7 counterexample: the worker count 2 is reachable (trace of four
consecutive rate-limit failures from the initial 15: 15, 7, 3, 2, 2), and a
further rate-limit adjustment from 2 leaves 2 workers, which exceeds
`ceil(2 / 2) = 1` — the `min_workers` floor beats the claimed halving
bound. -/
theorem c7_counterexample :
    (batch_states initial_batch_state
        [[("a", Except.error "429"), ("b", Except.error "429"),
          ("c", Except.error "429"), ("d", Except.error "429")]]).map
        BatchSt.current_workers = [15, 7, 3, 2, 2] ∧
    ¬ ((process_task { current_workers := 2, backoff_factor := 8, rate_limited := true }
        (Except.error "429")).current_workers ≤ (2 + 1) / 2) := by
  constructor
  · decide
  · decide

/-- C7 (amended): after every rate-limit adjustment, the new worker count
is at most the ceiling of half the previous one or the `MIN_WORKERS` floor,
whichever is larger. -/
theorem c7_rate_limit_halving (st : BatchSt) (e : String)
    (h : strContains e "429" = true) :
    (process_task st (Except.error e)).current_workers ≤
      max ((st.current_workers + 1) / 2) MIN_WORKERS := by
  simp only [process_task, h, if_pos]
  simp only [MIN_WORKERS]
  omega

/-- Witness for C7 (amended): the first rate-limit hit from the initial
state: 15 workers drop to at most max(8, 2). -/
theorem c7_rate_limit_halving_witness :
    strContains "HTTP 429 Too Many Requests" "429" = true ∧
    (process_task initial_batch_state
        (Except.error "HTTP 429 Too Many Requests")).current_workers ≤
      max ((initial_batch_state.current_workers + 1) / 2) MIN_WORKERS :=
  ⟨by decide, c7_rate_limit_halving initial_batch_state "HTTP 429 Too Many Requests" (by decide)⟩

/-- C8 counterexample: a task that raises "boom" is recorded under its own
key, but only with null urls — the raising error's message is not stored
(the `error` field of the recorded entry is absent). -/
theorem c8_counterexample :
    (process_group initial_batch_state [("k", Except.error "boom")]).2.lookup "k" =
      some { image_url := none, depth_map_url := none, error := none, placeholder := false } ∧
    ((process_group initial_batch_state [("k", Except.error "boom")]).2.lookup "k").map
        ImageResult.error = some none := by
  constructor
  · decide
  · decide

/-- The results a batch run returns are exactly the recorded outcomes of
the submitted tasks, in order, independent of the concurrency state. -/
theorem run_groups_results
    (groups : List (List (String × Except String ImageResult))) :
    ∀ st : BatchSt,
      (run_groups st groups).2 =
        groups.flatten.map (fun t => (t.1, record_outcome t.2)) := by
  induction groups with
  | nil => intro st; simp [run_groups]
  | cons g gs ih =>
    intro st
    simp only [run_groups, List.flatten_cons, List.map_append, process_group]
    rw [ih]

/-- The batch slicing covers the task list exactly. -/
theorem chunks_flatten {α : Type} (n : Nat) (l : List α) :
    (chunks n l).flatten = l := by
  match l with
  | [] => simp [chunks]
  | x :: xs =>
    unfold chunks
    by_cases hn : n = 0
    · simp [hn]
    · simp only [if_neg hn, List.flatten_cons]
      rw [chunks_flatten n ((x :: xs).drop n)]
      exact List.take_append_drop n (x :: xs)
termination_by l.length
decreasing_by
  simp [List.length_drop]
  omega

/-- C8 (amended): in every batch run, whatever the grouping and completion
order, the returned mapping records exactly one entry per submitted key, in
order: a raising task is recorded under its own key with null urls (and no
error message), a returning task with its returned result, and no failure
removes a sibling's entry; at the `generate_batch` level the returned keys
are exactly the submitted prompt keys. -/
theorem c8_task_isolation :
    (∀ (st : BatchSt) (groups : List (List (String × Except String ImageResult))),
      (run_groups st groups).2 =
        groups.flatten.map (fun t => (t.1, record_outcome t.2)) ∧
      (run_groups st groups).2.map Prod.fst = groups.flatten.map Prod.fst ∧
      ∀ k e, (k, Except.error e) ∈ groups.flatten →
        (k, { image_url := none, depth_map_url := none, error := none,
              placeholder := false }) ∈ (run_groups st groups).2) ∧
    ∀ (outcome : String → String → Except String ImageResult)
      (prompts : List (String × String)) (bs : Nat),
      (generate_batch outcome prompts bs).map Prod.fst = prompts.map Prod.fst := by
  constructor
  · intro st groups
    refine ⟨run_groups_results groups st, ?_, ?_⟩
    · rw [run_groups_results groups st, List.map_map]
      rfl
    · intro k e hmem
      rw [run_groups_results groups st]
      exact List.mem_map.mpr ⟨(k, Except.error e), hmem, rfl⟩
  · intro outcome prompts bs
    unfold generate_batch
    rw [run_groups_results, List.map_map, chunks_flatten, List.map_map]
    rfl

/-- Witness for C8 (amended): a two-task group with one raising task still
records both keys, and the raising key maps to the null-url entry. -/
theorem c8_task_isolation_witness :
    (run_groups initial_batch_state
        [[("a", Except.error "boom"),
          ("b", Except.ok { image_url := some "u", depth_map_url := some "d",
                            error := none, placeholder := false })]]).2.map Prod.fst =
      ["a", "b"] ∧
    ("a", ({ image_url := none, depth_map_url := none, error := none,
             placeholder := false } : ImageResult)) ∈
      (run_groups initial_batch_state
        [[("a", Except.error "boom"),
          ("b", Except.ok { image_url := some "u", depth_map_url := some "d",
                            error := none, placeholder := false })]]).2 := by
  have h := c8_task_isolation.1 initial_batch_state
    [[("a", Except.error "boom"),
      ("b", Except.ok { image_url := some "u", depth_map_url := some "d",
                        error := none, placeholder := false })]]
  exact ⟨h.2.1.trans (by decide), h.2.2 "a" "boom" (by simp)⟩

/-! Claims C4, C5, C10: the builder's segment merge and correlation. -/

/-- `prompt_at` succeeds whenever every prompt segment carries an image
prompt. -/
theorem prompt_at_ok (pss : Option (List PromptSegment))
    (hps : ∀ ps, pss = some ps → ∀ sg ∈ ps, sg.image_prompt.isSome) (i : Nat) :
    ∃ p, prompt_at pss i = Except.ok p := by
  cases pss with
  | none => exact ⟨none, rfl⟩
  | some ps =>
    simp only [prompt_at]
    by_cases h : i < ps.length
    · rw [dif_pos h]
      have hm := hps ps rfl (ps.get ⟨i, h⟩) (ps.get_mem i h)
      cases hip : (ps.get ⟨i, h⟩).image_prompt with
      | none => rw [hip] at hm; simp at hm
      | some p => exact ⟨some p, rfl⟩
    · rw [dif_neg h]; exact ⟨none, rfl⟩

/-- A successful segment merge yields one output segment per transcription
segment. -/
theorem update_segments_go_length (hash : String → String)
    (pss : Option (List PromptSegment)) (imgd : Option ImageData) :
    ∀ (l : List TransSegment) (i : Nat) (out : List OutSegment),
      update_segments_go hash pss imgd i l = Except.ok out → out.length = l.length := by
  intro l
  induction l with
  | nil =>
    intro i out h
    simp only [update_segments_go] at h
    cases h
    rfl
  | cons s rest ih =>
    intro i out h
    simp only [update_segments_go] at h
    split at h
    · cases h
    · split at h
      · cases h
      · cases h
        rename_i tl htl
        simp [ih _ _ htl]

/-- The segment merge succeeds whenever every prompt segment carries an
image prompt. -/
theorem update_segments_go_ok (hash : String → String)
    (pss : Option (List PromptSegment)) (imgd : Option ImageData)
    (hps : ∀ ps, pss = some ps → ∀ sg ∈ ps, sg.image_prompt.isSome) :
    ∀ (l : List TransSegment) (i : Nat),
      ∃ out, update_segments_go hash pss imgd i l = Except.ok out := by
  intro l
  induction l with
  | nil => intro i; exact ⟨[], rfl⟩
  | cons s rest ih =>
    intro i
    obtain ⟨p, hp⟩ := prompt_at_ok pss hps i
    obtain ⟨tl, htl⟩ := ih (i + 1)
    have hb : ∃ o, build_out_segment hash pss imgd i s = Except.ok o := by
      simp only [build_out_segment, hp]
      exact ⟨_, rfl⟩
    obtain ⟨o, ho⟩ := hb
    exact ⟨o :: tl, by simp only [update_segments_go, ho, htl]⟩

/-- The `j`-th output segment of a successful merge is built from the
`j`-th transcription segment at absolute index `i + j`. -/
theorem update_segments_go_getD (hash : String → String)
    (pss : Option (List PromptSegment)) (imgd : Option ImageData)
    (dseg : TransSegment) (dout : OutSegment) :
    ∀ (l : List TransSegment) (i : Nat) (out : List OutSegment) (j : Nat),
      update_segments_go hash pss imgd i l = Except.ok out → j < l.length →
      build_out_segment hash pss imgd (i + j) (l.getD j dseg) =
        Except.ok (out.getD j dout) := by
  intro l
  induction l with
  | nil => intro i out j h hj; simp at hj
  | cons s rest ih =>
    intro i out j h hj
    simp only [update_segments_go] at h
    split at h
    · cases h
    · rename_i o ho
      split at h
      · cases h
      · rename_i tl htl
        cases h
        cases j with
        | zero => simpa using ho
        | succ j =>
          have hrec := ih (i + 1) tl j htl (by simpa using hj)
          have harith : i + 1 + j = i + (j + 1) := by omega
          rw [harith] at hrec
          simpa using hrec

/-- C4: reconciliation truncates both segment lists to the shorter length
before the merge, so the merged artifact has exactly `min m n` segments
(the merge itself succeeds because every prompt segment — truncated or not
— carries an image prompt). -/
theorem reconcile_snd_subset (t : Transcription) (p : PromptData) :
    (reconcile t p).2.segments ⊆ p.segments := by
  simp only [reconcile]
  split
  · show p.segments.take _ ⊆ p.segments
    exact List.take_subset _ _
  · show p.segments ⊆ p.segments
    exact fun _ h => h

/-- The transcription side of `reconcile` has exactly `min m n` segments. -/
theorem reconcile_fst_length (t : Transcription) (p : PromptData) :
    (reconcile t p).1.segments.length =
      min t.segments.length p.segments.length := by
  simp only [reconcile]
  split
  · show (t.segments.take _).length = _
    simp only [List.length_take]
    omega
  · rename_i heq
    push_neg at heq
    show t.segments.length = min t.segments.length p.segments.length
    omega

/-- C4: reconciliation truncates both segment lists to the shorter length
before the merge, so the merged artifact has exactly `min m n` segments
(the merge itself succeeds because every prompt segment — truncated or not
— carries an image prompt). -/
theorem c4_truncation (hash : String → String) (t : Transcription) (p : PromptData)
    (himg : ∀ sg ∈ p.segments, sg.image_prompt.isSome) (imgd : Option ImageData) :
    ∃ out, update_segments hash (reconcile t p).1 (some (reconcile t p).2) imgd =
        Except.ok out ∧
      out.length = min t.segments.length p.segments.length := by
  have hps : ∀ ps, (some (reconcile t p).2).map (fun q => q.segments) = some ps →
      ∀ sg ∈ ps, sg.image_prompt.isSome := by
    intro ps hp sg hsg
    simp only [Option.map_some] at hp
    cases hp
    exact himg sg (reconcile_snd_subset t p hsg)
  obtain ⟨out, hout⟩ := update_segments_go_ok hash
    ((some (reconcile t p).2).map (fun q => q.segments)) imgd hps
    (reconcile t p).1.segments 0
  refine ⟨out, hout, ?_⟩
  have hlen := update_segments_go_length hash _ imgd _ _ _ hout
  rw [hlen, reconcile_fst_length]

/-- Witness for C4: 5 transcription segments and 7 prompt segments merge to
exactly 5 artifact segments. -/
theorem c4_truncation_witness :
    ∃ out,
      update_segments (fun _ => "h")
        (reconcile
          ⟨10, [⟨"t1", 0, 1, [], none⟩, ⟨"t2", 1, 2, [], none⟩, ⟨"t3", 2, 3, [], none⟩,
                ⟨"t4", 3, 4, [], none⟩, ⟨"t5", 4, 5, [], none⟩]⟩
          ⟨[⟨"t1", 0, 1, some "p1", none⟩, ⟨"t2", 1, 2, some "p2", none⟩,
            ⟨"t3", 2, 3, some "p3", none⟩, ⟨"t4", 3, 4, some "p4", none⟩,
            ⟨"t5", 4, 5, some "p5", none⟩, ⟨"t6", 5, 6, some "p6", none⟩,
            ⟨"t7", 6, 7, some "p7", none⟩], true, none⟩).1
        (some (reconcile
          ⟨10, [⟨"t1", 0, 1, [], none⟩, ⟨"t2", 1, 2, [], none⟩, ⟨"t3", 2, 3, [], none⟩,
                ⟨"t4", 3, 4, [], none⟩, ⟨"t5", 4, 5, [], none⟩]⟩
          ⟨[⟨"t1", 0, 1, some "p1", none⟩, ⟨"t2", 1, 2, some "p2", none⟩,
            ⟨"t3", 2, 3, some "p3", none⟩, ⟨"t4", 3, 4, some "p4", none⟩,
            ⟨"t5", 4, 5, some "p5", none⟩, ⟨"t6", 5, 6, some "p6", none⟩,
            ⟨"t7", 6, 7, some "p7", none⟩], true, none⟩).2) none = Except.ok out ∧
      out.length = 5 := by
  obtain ⟨out, h1, h2⟩ := c4_truncation (fun _ => "h")
    ⟨10, [⟨"t1", 0, 1, [], none⟩, ⟨"t2", 1, 2, [], none⟩, ⟨"t3", 2, 3, [], none⟩,
          ⟨"t4", 3, 4, [], none⟩, ⟨"t5", 4, 5, [], none⟩]⟩
    ⟨[⟨"t1", 0, 1, some "p1", none⟩, ⟨"t2", 1, 2, some "p2", none⟩,
      ⟨"t3", 2, 3, some "p3", none⟩, ⟨"t4", 3, 4, some "p4", none⟩,
      ⟨"t5", 4, 5, some "p5", none⟩, ⟨"t6", 5, 6, some "p6", none⟩,
      ⟨"t7", 6, 7, some "p7", none⟩], true, none⟩
    (by decide) none
  exact ⟨out, h1, by simpa using h2⟩

/-- C5: the correlation attaches, in order: the entry whose key is exactly
the segment's ordinal rendered as a string; failing that, the first entry
whose key contains the token built from "hash-" and the digest of the
segment's trimmed lower-cased text; failing both, the segment's url fields
stay unset — even when the mapping is non-empty, so no positional fallback
is ever applied. -/
theorem c5_correlation (hash : String → String) (t : Transcription)
    (pd : Option PromptData) (imgd : ImageData) (i : Nat)
    (out : List OutSegment) (dseg : TransSegment) (dout : OutSegment)
    (hok : update_segments hash t pd (some imgd) = Except.ok out)
    (hi : i < t.segments.length) :
    (∀ r, imgd.lookup (Nat.repr i) = some r →
      (out.getD i dout).image_url = some r.image_url ∧
      (out.getD i dout).depth_map_url = some r.depth_map_url) ∧
    (imgd.lookup (Nat.repr i) = none →
      ∀ k r,
        imgd.find? (fun kv => strContains kv.1
            ("hash-" ++ hash (content_hash_input (t.segments.getD i dseg).text))) =
          some (k, r) →
        (out.getD i dout).image_url = some r.image_url ∧
        (out.getD i dout).depth_map_url = some r.depth_map_url) ∧
    (imgd.lookup (Nat.repr i) = none →
      imgd.find? (fun kv => strContains kv.1
          ("hash-" ++ hash (content_hash_input (t.segments.getD i dseg).text))) = none →
      (out.getD i dout).image_url = none ∧
      (out.getD i dout).depth_map_url = none) := by
  rw [update_segments] at hok
  have hb := update_segments_go_getD hash (pd.map (fun q => q.segments)) (some imgd)
    dseg dout t.segments 0 out i hok hi
  rw [Nat.zero_add] at hb
  simp only [build_out_segment] at hb
  split at hb
  · cases hb
  · rename_i ip hip
    have hout : out.getD i dout =
        { id := i
          text := (t.segments.getD i dseg).text
          start_time := (t.segments.getD i dseg).start_time
          end_time := (t.segments.getD i dseg).end_time
          duration := (t.segments.getD i dseg).end_time - (t.segments.getD i dseg).start_time
          words := (t.segments.getD i dseg).words
          part := (t.segments.getD i dseg).part
          image_prompt := ip
          image_url := (find_image_data hash i (t.segments.getD i dseg).text imgd).map
            (fun d => d.image_url)
          depth_map_url := (find_image_data hash i (t.segments.getD i dseg).text imgd).map
            (fun d => d.depth_map_url) } := by
      exact (Except.ok.inj hb).symm
    refine ⟨?_, ?_, ?_⟩
    · intro r hr
      rw [hout]
      simp only [find_image_data, hr, Option.map_some]
      exact ⟨rfl, rfl⟩
    · intro hnone k r hfind
      rw [hout]
      simp only [find_image_data, hnone, hfind, Option.map_some]
      exact ⟨rfl, rfl⟩
    · intro hnone hfind
      rw [hout]
      simp only [find_image_data, hnone, hfind, Option.map_none]
      exact ⟨rfl, rfl⟩

/-- Witness for C5: a one-segment document correlated against a mapping
keyed by the exact ordinal "0". -/
theorem c5_correlation_witness :
    (([⟨0, "Hello", 0, 1, 1, [], none, none, some (some "u"), some (some "d")⟩] :
        List OutSegment).getD 0
      ⟨0, "", 0, 0, 0, [], none, none, none, none⟩).image_url = some (some "u") ∧
    (([⟨0, "Hello", 0, 1, 1, [], none, none, some (some "u"), some (some "d")⟩] :
        List OutSegment).getD 0
      ⟨0, "", 0, 0, 0, [], none, none, none, none⟩).depth_map_url = some (some "d") := by
  have h := c5_correlation (fun s => s) ⟨1, [⟨"Hello", 0, 1, [], none⟩]⟩ none
    [("0", ⟨some "u", some "d", none, false⟩)] 0
    [⟨0, "Hello", 0, 1, 1, [], none, none, some (some "u"), some (some "d")⟩]
    ⟨"", 0, 0, [], none⟩ ⟨0, "", 0, 0, 0, [], none, none, none, none⟩
    (by rfl) (by decide)
  exact h.1 ⟨some "u", some "d", none, false⟩ (by decide)

/-- A lookup misses when the key differs from every stored key. -/
theorem lookup_none_of_ne (l : ImageData) (k : String)
    (h : ∀ k2 ∈ l.map Prod.fst, k2 ≠ k) : l.lookup k = none := by
  induction l with
  | nil => rfl
  | cons kv rest ih =>
    have hk : kv.1 ≠ k := h kv.1 (by simp)
    have hbeq : (k == kv.1) = false := beq_eq_false_iff_ne.mpr (Ne.symm hk)
    simp only [List.lookup, hbeq]
    exact ih (fun k2 hk2 => h k2 (by simp [hk2]))

/-- C10: a prompt-stage segment with no id gets the batch key built from
the 1-based ordinal `i + 1` and the content-hash token, while the
accumulator stamps the same segment with the 0-based id `i`; no such key
ever equals an ordinal rendered as a string, so the correlator's
exact-ordinal strategy never matches an orchestrator-built key and a
mapping keyed this way can only be resolved through the content-hash
scan. -/
theorem c10_ordinal_mismatch (hash : String → String) (psegs : List PromptSegment)
    (hid : ∀ sg ∈ psegs, sg.id = none) :
    (∀ i prompt, i < psegs.length →
      (psegs.getD i ⟨"", 0, 0, none, none⟩).image_prompt = some prompt →
      (Nat.repr (i + 1) ++ "-hash-" ++
          hash (content_hash_input (psegs.getD i ⟨"", 0, 0, none, none⟩).text), prompt) ∈
        build_image_prompts hash psegs) ∧
    (∀ k p, (k, p) ∈ build_image_prompts hash psegs → ∀ j : Nat, k ≠ Nat.repr j) ∧
    (∀ (t : Transcription) (pd : Option PromptData) (imgd : Option ImageData)
        (out : List OutSegment) (i : Nat) (dout : OutSegment),
      update_segments hash t pd imgd = Except.ok out → i < out.length →
      (out.getD i dout).id = i) ∧
    (∀ (imgd : ImageData) (j : Nat) (text : String),
      imgd.map Prod.fst = (build_image_prompts hash psegs).map Prod.fst →
      imgd.lookup (Nat.repr j) = none ∧
      find_image_data hash j text imgd =
        (imgd.find? (fun kv =>
          strContains kv.1 ("hash-" ++ hash (content_hash_input text)))).map Prod.snd) := by
  have hkey : ∀ k p, (k, p) ∈ build_image_prompts hash psegs →
      ∀ j : Nat, k ≠ Nat.repr j := by
    intro k p hmem j
    simp only [build_image_prompts, List.mem_filterMap] at hmem
    obtain ⟨a, _, ha⟩ := hmem
    cases hip : a.2.image_prompt with
    | none => rw [hip] at ha; cases ha
    | some q =>
      rw [hip] at ha
      simp only [Option.map_some', Option.some.injEq, Prod.mk.injEq] at ha
      rw [← ha.1]
      exact key_ne_repr _ _ j
  refine ⟨?_, hkey, ?_, ?_⟩
  · intro i prompt hi hp
    have hget : psegs.getD i ⟨"", 0, 0, none, none⟩ = psegs.get ⟨i, hi⟩ := by
      simp [List.getD_eq_getElem?_getD, List.getElem?_eq_getElem hi,
        List.get_eq_getElem]
    have hmem : (i, psegs.get ⟨i, hi⟩) ∈ psegs.enum := by
      rw [List.mem_iff_get]
      refine ⟨⟨i, by simpa [List.enum_length] using hi⟩, ?_⟩
      simp [List.get_eq_getElem, List.getElem_enum]
    simp only [build_image_prompts, List.mem_filterMap]
    refine ⟨(i, psegs.get ⟨i, hi⟩), hmem, ?_⟩
    rw [hget] at hp
    have hidn : (psegs.get ⟨i, hi⟩).id = none := hid _ (psegs.get_mem i hi)
    simp only [hp, Option.map_some, hidn, Option.getD_none, hget]
    rfl
  · intro t pd imgd out i dout hok hi
    rw [update_segments] at hok
    have hlen := update_segments_go_length hash _ imgd _ _ _ hok
    have hb := update_segments_go_getD hash (pd.map (fun q => q.segments)) imgd
      ⟨"", 0, 0, [], none⟩ dout t.segments 0 out i hok (by omega)
    simp only [build_out_segment] at hb
    split at hb
    · cases hb
    · have h2 := (Except.ok.inj hb).symm
      rw [h2]
      simp
  · intro imgd j text hkeys
    have hnone : imgd.lookup (Nat.repr j) = none := by
      refine lookup_none_of_ne imgd (Nat.repr j) ?_
      intro k2 hk2
      rw [hkeys] at hk2
      obtain ⟨⟨k3, p3⟩, hmem3, hfst⟩ := List.mem_map.mp hk2
      cases hfst
      exact hkey k3 p3 hmem3 j
    refine ⟨hnone, ?_⟩
    cases hf : imgd.find? (fun kv =>
        strContains kv.1 ("hash-" ++ hash (content_hash_input text))) with
    | none =>
      simp only [find_image_data, hnone, hf, Option.map_none']
    | some kv =>
      simp only [find_image_data, hnone, hf, Option.map_some]
      rfl

/-- Witness for C10: a single no-id segment with text "Hello" under the
identity digest gets key "1-hash-hello"; that key is not the string "0"
(nor any other rendered ordinal shown here for 0), and a mapping carrying
only that key resolves through the hash scan. -/
theorem c10_ordinal_mismatch_witness :
    ("1-hash-hello", "p") ∈
      build_image_prompts (fun s => s) [⟨"Hello", 0, 1, some "p", none⟩] ∧
    "1-hash-hello" ≠ Nat.repr 0 ∧
    find_image_data (fun s => s) 0 "Hello"
        [("1-hash-hello",
          ⟨some "u", some "d", none, false⟩)] =
      some ⟨some "u", some "d", none, false⟩ := by
  have h := c10_ordinal_mismatch (fun s => s) [⟨"Hello", 0, 1, some "p", none⟩]
    (by decide)
  have h1 : ("1-hash-hello", "p") ∈
      build_image_prompts (fun s => s) [⟨"Hello", 0, 1, some "p", none⟩] :=
    h.1 0 "p" (by decide) (by decide)
  refine ⟨h1, h.2.1 "1-hash-hello" "p" h1 0, ?_⟩
  have h4 := (h.2.2.2 [("1-hash-hello", ⟨some "u", some "d", none, false⟩)] 0 "Hello"
    (by decide)).2
  rw [h4]
  decide

/-! Claim C9: the minimal-emission escape hatch. -/

/-- C9 counterexample: the stripped-down document's title is
"Error in video generation", not "Error"; and when the storage write
raises, `save_minimal` propagates the exception instead of never
raising. -/
theorem c9_counterexample :
    (minimal_document ⟨"space", "video_1.json", "video_error_1.json"⟩
        "boom").title ≠ "Error" ∧
    save_minimal (fun _ => Except.error "disk full")
        ⟨"space", "video_1.json", "video_error_1.json"⟩ "boom" =
      Except.error "disk full" := by
  constructor
  · decide
  · rfl

/-- C9 (amended): for every error payload and builder state, the minimal
escape hatch hands the storage layer a stripped-down document with title
"Error in video generation", the error payload, and an empty segment list;
it raises exactly when the storage write itself raises, returning the
written path otherwise. -/
theorem c9_minimal_document {α : Type}
    (storage_save : MinimalDoc α → Except String String)
    (builder : BuilderState) (error_info : α) :
    (minimal_document builder error_info).title = "Error in video generation" ∧
    (minimal_document builder error_info).error_info = error_info ∧
    (minimal_document builder error_info).segments = [] ∧
    (minimal_document builder error_info).error = true ∧
    save_minimal storage_save builder error_info =
      storage_save (minimal_document builder error_info) :=
  ⟨rfl, rfl, rfl, rfl, rfl⟩

/-! Claims C1 and C2: the orchestrator's top-level handler and the job
dispatch boundary. -/

/-- Shape of every `generate_video` return value: either the completed
state (with no error recorded) or the error state produced by the
top-level handler; both record the end time, and the input prompt is
stored before anything can raise. -/
theorem generate_video_shape (env : StageEnv) (p : String) :
    ((generate_video env p).status = "completed" ∧ (generate_video env p).error = none ∨
      (generate_video env p).status = "error" ∧
        ∃ e, (generate_video env p).error = some e) ∧
    (generate_video env p).end_time = some env.t_end ∧
    (generate_video env p).input_prompt = some p ∧
    (generate_video env p).start_time = env.t0 := by
  unfold generate_video
  cases hp : (parse_input_prompt env p).topic with
  | none => simp [hp, fail_state, initial_state]
  | some topic =>
    simp only [hp]
    by_cases ht : topic = ""
    · simp [ht, fail_state, initial_state]
    · rw [if_neg ht]
      cases hs : env.script with
      | error e => simp [hs, fail_state, initial_state]
      | ok sd =>
        simp only [hs]
        cases h1 : env.save_after_script with
        | error e => simp [h1, fail_state, initial_state]
        | ok path1 =>
          simp only [h1]
          cases h2 : env.tts with
          | error e => simp [h2, fail_state, initial_state]
          | ok ai =>
            simp only [h2]
            cases h3 : env.save_after_audio with
            | error e => simp [h3, fail_state, initial_state]
            | ok path2 =>
              simp only [h3]
              cases h4 : env.transcribe with
              | error e => simp [h4, fail_state, initial_state]
              | ok tr =>
                simp only [h4]
                cases h5 : env.save_after_transcription with
                | error e => simp [h5, fail_state, initial_state]
                | ok path3 =>
                  simp only [h5]
                  repeat' split
                  all_goals simp [fail_state, initial_state]

/-- C1: `generate_video` returns a state for every input and environment
and never raises; when anything in the pipeline raises, the returned state
carries the failure marker (the status string "error"), the error string,
and a recorded end time, on top of the state accumulated so far (which
still holds the input prompt stored at entry). -/
theorem c1_top_level_catch (env : StageEnv) (input_prompt_str : String) :
    ((generate_video env input_prompt_str).status = "completed" ∧
      (generate_video env input_prompt_str).error = none ∨
      (generate_video env input_prompt_str).status = "error" ∧
        ∃ e, (generate_video env input_prompt_str).error = some e) ∧
    (generate_video env input_prompt_str).end_time = some env.t_end ∧
    (generate_video env input_prompt_str).input_prompt = some input_prompt_str :=
  let h := generate_video_shape env input_prompt_str
  ⟨h.1, h.2.1, h.2.2.1⟩

/-- C2: at the dispatcher boundary of this source, every job that reaches a
terminal state is a failed one — `Mastermind()` construction raises on
every path before `generate_video` can run, so the dispatcher's handler
marks every such job "failed" with no result and the error string (a
`SystemExit` from config validation escapes the handler and leaves the
record pending, which is not terminal and carries no result either). No
producible record ever pairs a "failed" status with a result or a
"completed" status without one, so the claimed discipline holds on every
execution: a failed job shows status "failed" and no result, a
degraded-assets completion (unreachable here) would show "completed" with a
result, and the two outcomes are distinguishable by the status field
alone. -/
theorem c2_dispatch_status (t t0 : Nat) (p : String) (msg : String) :
    (run_generation (MastermindInit.raises msg) t p (initial_job t0 p)).status =
      "failed" ∧
    (run_generation (MastermindInit.raises msg) t p (initial_job t0 p)).result =
      none ∧
    (run_generation (MastermindInit.raises msg) t p (initial_job t0 p)).error =
      some ("Generation failed: " ++ msg) ∧
    (run_generation MastermindInit.system_abort t p (initial_job t0 p)).status =
      "pending" ∧
    (run_generation MastermindInit.system_abort t p (initial_job t0 p)).result =
      none ∧
    (∀ init : MastermindInit,
      (run_generation init t p (initial_job t0 p)).status = "completed" ↔
        (run_generation init t p (initial_job t0 p)).result ≠ none) := by
  refine ⟨rfl, rfl, rfl, rfl, rfl, ?_⟩
  intro init
  cases init with
  | system_abort => simp [run_generation, initial_job]
  | raises e => simp [run_generation, initial_job]

end VideoJson
